import Mathlib

/-!
Verification development for the pricing core of the GBNX-Gold-Trader backend
(`src/backend/src/pricings/`): the websocket tick client
(`websocket_client.py`), the stream multiplexer (`stream_manager.py`), the
OHLC REST client (`price_client.py`) and the OHLC poll cache (`cache.py`).

The Python code is shallowly embedded: JSON values are an inductive type with
Python truthiness, Python floats are modelled as rationals, `datetime` values
as a record of calendar fields, and the async control flow (listen loops,
retry loops) as structural recursion over explicit event/outcome sequences.
-/

namespace GBNX

/-- JSON values as decoded by `json.loads`. Numbers are modelled as rationals
(Python floats/ints). -/
inductive Json where
  | null
  | bool (b : Bool)
  | num (q : ℚ)
  | str (s : String)
  | arr (elems : List Json)
  | obj (fields : List (String × Json))

/-- Python truthiness of a JSON-decoded value (`bool(x)`): `None`, `False`,
`0`, `""`, `[]` and `\x7b\x7d` are falsy, everything else truthy. -/
def truthy : Json → Bool
  | .null => false
  | .bool b => b
  | .num q => q ≠ 0
  | .str s => s ≠ ""
  | .arr xs => !xs.isEmpty
  | .obj fs => !fs.isEmpty

/-- Membership test `k in d` for a Python dict decoded from JSON. JSON object
keys are unique, so an association-list lookup is faithful. -/
def hasKey : Json → String → Bool
  | .obj fs, k => (fs.lookup k).isSome
  | _, _ => false

/-- Python `d.get(k)` on a dict: the stored value when the key is present,
`None` (here `.null`) otherwise. The code only calls `.get` on dicts; we
return `.null` for non-dicts as well (the corresponding Python
`AttributeError` surfaces later through the same missing-field error path). -/
def jget : Json → String → Json
  | .obj fs, k => match fs.lookup k with
    | some v => v
    | none => .null
  | _, _ => .null

/-- Python `d.get(k, default)`: the stored value when present (even if falsy),
the default otherwise. -/
def jgetD (j : Json) (k : String) (d : Json) : Json :=
  match j with
  | .obj fs => match fs.lookup k with
    | some v => v
    | none => d
  | _ => d

/-- Python `x or y` on already-computed values: `y` when `x` is falsy, else
`x`. -/
def pyOr (a b : Json) : Json :=
  if truthy a then a else b

/-- Split a character list at every occurrence of a separator character,
like Python `s.split(sep)` for a one-character separator (all the separators
the pricing code uses are one character). -/
def splitOnChar (sep : Char) : List Char → List (List Char)
  | [] => [[]]
  | c :: rest =>
    let r := splitOnChar sep rest
    if c = sep then [] :: r
    else match r with
      | [] => [[c]]
      | g :: gs => (c :: g) :: gs

/-- Python `s.replace(a, b)` for one-character `a` and `b`. -/
def replaceChar (a b : Char) (cs : List Char) : List Char :=
  cs.map fun c => if c = a then b else c

/-- Python `s.strip()`: remove leading and trailing whitespace. -/
def trimChars (cs : List Char) : List Char :=
  (((cs.dropWhile Char.isWhitespace).reverse.dropWhile Char.isWhitespace).reverse)

/-- Value of a nonempty all-digit character list, `none` otherwise. -/
def parseNatDigits (cs : List Char) : Option ℕ :=
  if cs.isEmpty then none
  else if cs.all Char.isDigit then
    some (cs.foldl (fun n c => 10 * n + (c.toNat - 48)) 0)
  else none

/-- Decimal-notation subset of Python `float(string)`: optional sign, integer
part, optional fractional part, surrounding whitespace stripped. (Exponent,
`inf` and `nan` forms are not modelled; no code path in the claims produces
them.) -/
def parseDecimal (cs : List Char) : Option ℚ :=
  let t := trimChars cs
  let sign : ℚ := if t.head? = some '-' then -1 else 1
  let body := if t.head? = some '-' || t.head? = some '+' then t.drop 1 else t
  match splitOnChar '.' body with
  | [intPart] => (parseNatDigits intPart).map (fun n => sign * n)
  | [intPart, fracPart] =>
    if intPart.isEmpty && fracPart.isEmpty then none
    else
      let ip : Option ℕ := if intPart.isEmpty then some 0 else parseNatDigits intPart
      let fp : Option (ℕ × ℕ) :=
        if fracPart.isEmpty then some (0, 0)
        else (parseNatDigits fracPart).map (fun n => (n, fracPart.length))
      match ip, fp with
      | some i, some (f, len) => some (sign * ((i : ℚ) + (f : ℚ) / (10 ^ len : ℕ)))
      | _, _ => none
  | _ => none

/-- Python `float(x)` on a JSON-decoded value: numbers pass through, booleans
coerce to 0/1, decimal strings are parsed, everything else raises
(`TypeError`/`ValueError`), modelled as `.error`. -/
def pyFloat : Json → Except String ℚ
  | .num q => .ok q
  | .bool b => .ok (if b then 1 else 0)
  | .str s => match parseDecimal s.toList with
    | some q => .ok q
    | none => .error "could not convert string to float"
  | _ => .error "float argument must be a string or a real number"

/-- A Python `datetime` value, reduced to its calendar fields. -/
structure PyDatetime where
  year : ℕ
  month : ℕ
  day : ℕ
  hour : ℕ
  minute : ℕ
  second : ℕ
  microsecond : ℕ
deriving Repr, DecidableEq

/-- Fractional-second digits of an ISO timestamp converted to microseconds
(1 to 6 digits, right-padded with zeros). -/
def parseFracMicro (cs : List Char) : Option ℕ :=
  if 1 ≤ cs.length && cs.length ≤ 6 then
    (parseNatDigits cs).map (fun n => n * 10 ^ (6 - cs.length))
  else none

/-- Two-digit component of an ISO timestamp below a bound. -/
def comp2 (cs : List Char) (bound : ℕ) : Option ℕ :=
  if cs.length = 2 then
    match parseNatDigits cs with
    | some n => if n < bound then some n else none
    | none => none
  else none

/-- Time-of-day part `HH:MM[:SS[.ffffff]]` of an ISO timestamp, yielding
(hour, minute, second, microsecond). -/
def parseIsoTime (t : List Char) : Option (ℕ × ℕ × ℕ × ℕ) :=
  match splitOnChar ':' t with
  | [h, m] => do
    let hv ← comp2 h 24
    let mv ← comp2 m 60
    some (hv, mv, 0, 0)
  | [h, m, rest] => do
    let hv ← comp2 h 24
    let mv ← comp2 m 60
    match splitOnChar '.' rest with
    | [sec] => do
      let sv ← comp2 sec 60
      some (hv, mv, sv, 0)
    | [sec, frac] => do
      let sv ← comp2 sec 60
      let fv ← parseFracMicro frac
      some (hv, mv, sv, fv)
    | _ => none
  | _ => none

/-- Date part `YYYY-MM-DD` of an ISO timestamp. -/
def parseIsoDate (d : List Char) : Option (ℕ × ℕ × ℕ) :=
  match splitOnChar '-' d with
  | [y, mo, dd] =>
    if y.length = 4 && mo.length = 2 && dd.length = 2 then do
      let yv ← parseNatDigits y
      let mov ← parseNatDigits mo
      let ddv ← parseNatDigits dd
      if 1 ≤ mov && mov ≤ 12 && 1 ≤ ddv && ddv ≤ 31 then
        some (yv, mov, ddv)
      else none
    else none
  | _ => none

/-- Model of `datetime.fromisoformat` on `YYYY-MM-DD[THH:MM[:SS[.ffffff]]]`
strings: `none` models the `ValueError` raised on malformed input. (Month
lengths are approximated by the bound 31; the callers below fall back to
`datetime.now()` on failure, and no claim depends on exact calendar
validation.) -/
def fromisoformat (cs : List Char) : Option PyDatetime :=
  match splitOnChar 'T' cs with
  | [d] => (parseIsoDate d).map (fun (y, mo, dd) => ⟨y, mo, dd, 0, 0, 0, 0⟩)
  | [d, t] => do
    let (y, mo, dd) ← parseIsoDate d
    let (h, mi, sec, micro) ← parseIsoTime t
    some ⟨y, mo, dd, h, mi, sec, micro⟩
  | _ => none

/-- Timestamp-field handling shared by both tick wire shapes
(`websocket_client.py` lines 86-94 and 115-122): when the field value is a
nonempty string, `fromisoformat(value.replace(" ", "T"))` is tried and its
`ValueError` falls back to `datetime.now()`; a falsy value skips parsing and a
truthy non-string raises `AttributeError` at `.replace`, both also yielding
`datetime.now()` (modelled by the parameter `now`). -/
def parseTimestampField (tsField : Json) (now : PyDatetime) : PyDatetime :=
  match tsField with
  | .str s =>
    if s = "" then now
    else match fromisoformat (replaceChar ' ' 'T' s.toList) with
      | some d => d
      | none => now
  | _ => now

/-- Python `x is None` on a JSON-decoded value. -/
def isNull : Json → Bool
  | .null => true
  | _ => false

/-- The canonical tick record (`models.TickData`). -/
structure TickData where
  symbol : String
  bid : ℚ
  ask : ℚ
  timestamp : PyDatetime
  spread : Option ℚ
deriving Repr, DecidableEq

/-- Symbol field of a tick message: `d.get("symbol", self.symbol.value)`
(`websocket_client.py` lines 99 and 129); the stored value is used when it is
a string, the connection symbol otherwise. -/
def tickSymbol (d : Json) (selfSymbol : String) : String :=
  match jgetD d "symbol" (.str selfSymbol) with
  | .str s => s
  | _ => selfSymbol

/-- Wrapped-format branch of `PriceWebSocketClient.receive_tick`
(`websocket_client.py` lines 74-104), applied to the latest (last) element of
the values array: probe `bid_price|bid`, `ask_price|ask` and
`date_time|timestamp` with Python `or`-chains, raise when bid or ask comes
out `None`, parse the timestamp with a `datetime.now()` fallback, and derive
the spread as `float(ask) - float(bid)`. -/
def wrappedTick (selfSymbol : String) (now : PyDatetime) (latest : Json) :
    Except String TickData :=
  let bid := pyOr (jget latest "bid_price") (jget latest "bid")
  let ask := pyOr (jget latest "ask_price") (jget latest "ask")
  let tsField := pyOr (jget latest "date_time") (jget latest "timestamp")
  if isNull bid || isNull ask then
    .error "Missing bid or ask price in tick data"
  else do
    let timestamp := parseTimestampField tsField now
    let a ← pyFloat ask
    let b ← pyFloat bid
    let spread := a - b
    .ok { symbol := tickSymbol latest selfSymbol, bid := b, ask := a,
          timestamp := timestamp, spread := some spread }

/-- Flat-format branch of `PriceWebSocketClient.receive_tick`
(`websocket_client.py` lines 107-134): same field probing on the top-level
object, and the spread is taken from a `spread` field when present (not
`None`), otherwise derived as `float(ask) - float(bid)`. -/
def flatTick (selfSymbol : String) (now : PyDatetime) (d : Json) :
    Except String TickData :=
  let bid := pyOr (jget d "bid_price") (jget d "bid")
  let ask := pyOr (jget d "ask_price") (jget d "ask")
  if isNull bid || isNull ask then
    .error "Message missing bid or ask fields"
  else do
    let tsField := pyOr (jget d "date_time") (jget d "timestamp")
    let timestamp := parseTimestampField tsField now
    let a ← pyFloat ask
    let b ← pyFloat bid
    let spreadField := jget d "spread"
    let spread ← if isNull spreadField then pure (a - b) else pyFloat spreadField
    .ok { symbol := tickSymbol d selfSymbol, bid := b, ask := a,
          timestamp := timestamp, spread := some spread }

/-- Test whether a JSON value is an array (`isinstance(x, list)`). -/
def isArr : Json → Bool
  | .arr _ => true
  | _ => false

/-- Message-parsing core of `PriceWebSocketClient.receive_tick`
(`websocket_client.py` lines 61-137), applied to an already JSON-decoded
frame `data`: a frame with a list-valued `values` key uses the last element
of the array (empty array raises), a frame with any of the four bid/ask keys
is parsed flat, and anything else raises the unknown-format error. `now`
stands for `datetime.now()` at parse time. -/
def receive_tick (selfSymbol : String) (now : PyDatetime) (data : Json) :
    Except String TickData :=
  if hasKey data "values" && isArr (jget data "values") then
    match jget data "values" with
    | .arr vs =>
      match vs.getLast? with
      | none => .error "Empty values array in message"
      | some latest => wrappedTick selfSymbol now latest
    | _ => .error "Empty values array in message"
  else if hasKey data "bid" || hasKey data "ask" ||
      hasKey data "bid_price" || hasKey data "ask_price" then
    flatTick selfSymbol now data
  else
    .error "Unknown message format"

/-- One event produced by `websocket.recv()` inside the listen loop: a frame
that decodes as JSON, a frame that fails `json.loads`, a
`websockets.exceptions.ConnectionClosed`, or another socket-level error. -/
inductive WireEvent where
  | msg (j : Json)
  | badJson
  | connClosed
  | sockError (e : String)

/-- How a call to `PriceWebSocketClient.listen` ends: returning normally
(`running` false, or `ConnectionClosed` caught without re-raising), or
re-raising an exception. -/
inductive ListenOutcome where
  | completed
  | raised (e : String)
deriving Repr, DecidableEq

/-- Model of `PriceWebSocketClient.listen` (`websocket_client.py` lines
139-156) over a finite trace of socket events: each well-formed tick is
passed to the callback; a JSON-decode or tick-parse failure raised by
`receive_tick`, a socket error, or a callback exception is caught by the
generic handler and re-raised (terminating the loop); `ConnectionClosed` is
caught and swallowed. The returned list holds the ticks handed to the
callback, in arrival order; an exhausted trace models the loop still waiting
(`completed` from the model's point of view). -/
def listen (cb : TickData → Except String Unit) (selfSymbol : String)
    (now : PyDatetime) : List WireEvent → List TickData × ListenOutcome
  | [] => ([], .completed)
  | .badJson :: _ => ([], .raised "JSONDecodeError")
  | .connClosed :: _ => ([], .completed)
  | .sockError e :: _ => ([], .raised e)
  | .msg j :: rest =>
    match receive_tick selfSymbol now j with
    | .error e => ([], .raised e)
    | .ok t =>
      match cb t with
      | .error e => ([t], .raised e)
      | .ok _ =>
        let r := listen cb selfSymbol now rest
        (t :: r.1, r.2)

/-- Subscriber callbacks, identified abstractly (the Python side stores
callables in a set). -/
abbrev Callback := ℕ

/-- Fan-out step `broadcast_tick` of `PriceStreamManager._start_stream`
(`stream_manager.py` lines 48-53): `asyncio.gather` over one invocation per
current subscriber with `return_exceptions=True`, so every callback is
invoked and each raised exception is returned as a value instead of
propagating. `runCb` gives each callback's behaviour on a tick. -/
def broadcast_tick (cbs : List Callback)
    (runCb : Callback → TickData → Except String Unit) (t : TickData) :
    List (Callback × Except String Unit) :=
  cbs.map fun c => (c, runCb c t)

/-- The listen loop as driven by the stream manager: `client.listen` with
`broadcast_tick` as the callback. Because `gather` is called with
`return_exceptions=True`, the broadcast itself never raises, so the loop
continues past subscriber failures; each processed tick is recorded together
with the per-subscriber delivery results. -/
def managerListen (cbs : List Callback)
    (runCb : Callback → TickData → Except String Unit)
    (selfSymbol : String) (now : PyDatetime) :
    List WireEvent → List (TickData × List (Callback × Except String Unit)) × ListenOutcome
  | [] => ([], .completed)
  | .badJson :: _ => ([], .raised "JSONDecodeError")
  | .connClosed :: _ => ([], .completed)
  | .sockError e :: _ => ([], .raised e)
  | .msg j :: rest =>
    match receive_tick selfSymbol now j with
    | .error e => ([], .raised e)
    | .ok t =>
      let r := managerListen cbs runCb selfSymbol now rest
      ((t, broadcast_tick cbs runCb t) :: r.1, r.2)

/-- State of `PriceStreamManager` relevant to connection lifecycle: the
per-symbol subscriber sets (the `subscribers` dict; a key is present iff the
dict holds an entry) and the keys of the `clients` dict in insertion order.
The task map mirrors `clients` key-for-key and is omitted. -/
structure ManagerState where
  subscribers : String → Option (Finset Callback)
  clients : List String

/-- A freshly constructed `PriceStreamManager`: empty dicts. -/
def initialManager : ManagerState :=
  { subscribers := fun _ => none, clients := [] }

/-- Model of `PriceStreamManager.subscribe` (`stream_manager.py` lines
13-26) run to completion: create the subscriber set if missing, add the
callback, and if no client exists for the symbol, `_start_stream` installs
one (`self.clients[symbol_str] = client`, a dict insertion appending a new
key). -/
def subscribe (st : ManagerState) (s : String) (c : Callback) : ManagerState :=
  let cur := (st.subscribers s).getD ∅
  { subscribers := fun x => if x = s then some (insert c cur) else st.subscribers x,
    clients := if s ∈ st.clients then st.clients else st.clients ++ [s] }

/-- Model of `PriceStreamManager.unsubscribe` (`stream_manager.py` lines
28-39) together with `_stop_stream` (lines 87-97): discard the callback when
the symbol has a subscriber entry; when the set becomes empty, tear down the
stream, deleting the task, the client and the subscriber entry. -/
def unsubscribe (st : ManagerState) (s : String) (c : Callback) : ManagerState :=
  match st.subscribers s with
  | none => st
  | some t =>
    let t' := t.erase c
    if t' = ∅ then
      { subscribers := fun x => if x = s then none else st.subscribers x,
        clients := st.clients.filter (fun x => x ≠ s) }
    else
      { subscribers := fun x => if x = s then some t' else st.subscribers x,
        clients := st.clients }

/-- One public lifecycle call on the manager. -/
inductive ManagerOp where
  | sub (s : String) (c : Callback)
  | unsub (s : String) (c : Callback)

/-- Apply one lifecycle call. -/
def applyOp (st : ManagerState) : ManagerOp → ManagerState
  | .sub s c => subscribe st s c
  | .unsub s c => unsubscribe st s c

/-- Run a sequence of subscribe/unsubscribe calls on a fresh manager. -/
def runOps (ops : List ManagerOp) : ManagerState :=
  ops.foldl applyOp initialManager

/-- `PriceStreamManager.get_active_streams` (`stream_manager.py` lines
103-104): `list(self.clients.keys())`. -/
def get_active_streams (st : ManagerState) : List String :=
  st.clients

/-- The subscriber set currently registered for a symbol (empty when the
dict has no entry). -/
def subscriberSet (st : ManagerState) (s : String) : Finset Callback :=
  (st.subscribers s).getD ∅

/-- Observable trace of one run of `listen_with_reconnect`: the argument of
each `asyncio.sleep` between attempts in order, the number of times
`client.listen` was called, and whether the loop gave up after exhausting
its retries. -/
structure ReconnectTrace where
  sleeps : List ℕ
  listenCalls : ℕ
  gaveUp : Bool
deriving Repr, DecidableEq

/-- Loop body of `listen_with_reconnect` (`stream_manager.py` lines 55-82).
`raises i` tells whether the `i`-th call of `client.listen` (0-based) raises;
`fuel` equals `max_retries - retry_count`, so the `while` guard
`retry_count < max_retries` is `fuel > 0`. On a failure the count is
incremented; strictly below the cap the loop sleeps `retry_delay` seconds,
doubles the delay (capped at 30) and reconnects (a reconnect failure is
itself swallowed and surfaces as the next listen call raising); at the cap it
gives up. A listen call that returns normally breaks the loop. -/
def reconnectLoop (raises : ℕ → Bool) :
    (idx : ℕ) → (retryDelay : ℕ) → (fuel : ℕ) → ReconnectTrace
  | _, _, 0 => ⟨[], 0, false⟩
  | idx, retryDelay, fuel + 1 =>
    if raises idx then
      if fuel > 0 then
        let rest := reconnectLoop raises (idx + 1) (min (retryDelay * 2) 30) fuel
        ⟨retryDelay :: rest.sleeps, rest.listenCalls + 1, rest.gaveUp⟩
      else
        ⟨[], 1, true⟩
    else
      ⟨[], 1, false⟩

/-- `listen_with_reconnect` (`stream_manager.py` lines 55-82):
`max_retries = 5`, `retry_count = 0`, `retry_delay = 1`. -/
def listen_with_reconnect (raises : ℕ → Bool) : ReconnectTrace :=
  reconnectLoop raises 0 1 5

/-- The canonical candle record (`models.OHLCData`). The Python field names
`open` and `timestamp` clash with nothing here except the Lean keyword
`open`, shortened to `opn` (and the others to match). -/
structure OHLCRec where
  timestamp : PyDatetime
  opn : ℚ
  hi : ℚ
  lo : ℚ
  cls : ℚ
  volume : Option ℚ
  trading_pair : String
deriving Repr, DecidableEq

/-- Pydantic v2 coercion of the raw `timestamp` argument to the `datetime`
field of `OHLCData`: ISO-8601 strings (space or `T` separator) are accepted,
`None` and other shapes are rejected as a `ValidationError`. (Numeric
POSIX-epoch coercion also exists in pydantic but is not modelled; no claim
exercises it.) -/
def pydanticDatetime : Json → Except String PyDatetime
  | .str s =>
    match fromisoformat (replaceChar ' ' 'T' s.toList) with
    | some d => .ok d
    | none => .error "invalid datetime"
  | _ => .error "datetime type error"

/-- Per-item parsing inside `get_ohlc_data` (`price_client.py` lines 50-73):
`or`-chained field probing over both casing conventions, `float` conversion
of the four prices (each raising on `None` or non-numeric values — the
`except` around the item re-raises, failing the whole attempt), optional
volume, and pydantic's datetime coercion of the raw timestamp value. -/
def parseItem (tp : String) (item : Json) : Except String OHLCRec := do
  let tsField := pyOr (pyOr (jget item "Date_time") (jget item "timestamp"))
      (jget item "Timestamp")
  let o ← pyFloat (pyOr (jget item "Open") (jget item "open"))
  let h ← pyFloat (pyOr (jget item "High") (jget item "high"))
  let l ← pyFloat (pyOr (jget item "Low") (jget item "low"))
  let c ← pyFloat (pyOr (jget item "Close") (jget item "close"))
  let volField := pyOr (jget item "Volume") (jget item "volume")
  let vol ← if isNull volField then pure none else some <$> pyFloat volField
  let ts ← pydanticDatetime tsField
  .ok { timestamp := ts, opn := o, hi := h, lo := l, cls := c,
        volume := vol, trading_pair := tp }

/-- Parse a list of response items in order, failing on the first bad item
(the Python loop re-raises out of the `for`). -/
def parseItems (tp : String) : List Json → Except String (List OHLCRec)
  | [] => .ok []
  | item :: rest => do
    let r ← parseItem tp item
    let rs ← parseItems tp rest
    .ok (r :: rs)

/-- Response handling of one `get_ohlc_data` attempt (`price_client.py`
lines 41-76): a dict response unwraps
`response_data.get("data", response_data.get("results", []))` (plain
`dict.get` with defaults, no truthiness), a list response is used directly,
anything else raises; iterating a non-list unwrapped value raises as well. -/
def parseResponse (tp : String) (responseData : Json) :
    Except String (List OHLCRec) :=
  match responseData with
  | .obj fs =>
    let data := match fs.lookup "data" with
      | some v => v
      | none => match fs.lookup "results" with
        | some v => v
        | none => .arr []
    match data with
    | .arr xs => parseItems tp xs
    | _ => .error "unwrapped response data is not iterable into dict items"
  | .arr xs => parseItems tp xs
  | _ => .error "Unexpected response format"

/-- Result of one whole try-block of the retry loop: the HTTP exchange
(`responses i`, raising transport/HTTP-status/JSON errors as `.error`)
followed by response parsing. -/
def attemptResult (tp : String) (responses : ℕ → Except String Json) (i : ℕ) :
    Except String (List OHLCRec) :=
  match responses i with
  | .error e => .error e
  | .ok j => parseResponse tp j

/-- Observable trace of one call of `get_ohlc_data`: the outcome (parsed
candles, or the raised last error), the number of attempts made, and the
argument of each inter-attempt `asyncio.sleep` in order. -/
structure FetchTrace where
  result : Except String (List OHLCRec)
  attemptsMade : ℕ
  sleeps : List ℚ
deriving Repr

/-- Retry loop of `get_ohlc_data` (`price_client.py` lines 33-86):
`for attempt in range(1, _MAX_RETRIES + 1)` with `_MAX_RETRIES = 3` and
`_RETRY_DELAY = 2.0`; a successful attempt returns its parsed result, a
failed attempt records the error and sleeps 2 seconds unless it was the last,
and after the loop the last error is raised. `fuel` is the number of
attempts left; `lastError` tracks `last_error`. -/
def fetchLoop (tp : String) (responses : ℕ → Except String Json) :
    (idx : ℕ) → (fuel : ℕ) → (lastError : String) → FetchTrace
  | _, 0, lastError => ⟨.error lastError, 0, []⟩
  | idx, fuel + 1, _ =>
    match attemptResult tp responses idx with
    | .ok v => ⟨.ok v, 1, []⟩
    | .error e =>
      if fuel > 0 then
        let rest := fetchLoop tp responses (idx + 1) fuel e
        ⟨rest.result, rest.attemptsMade + 1, 2 :: rest.sleeps⟩
      else
        ⟨.error e, 1, []⟩

/-- `get_ohlc_data` over an abstract sequence of per-attempt HTTP outcomes.
The initial `lastError` stands for the unreachable `raise last_error` with
`last_error` still `None`. -/
def get_ohlc_data (tp : String) (responses : ℕ → Except String Json) :
    FetchTrace :=
  fetchLoop tp responses 0 3 "last_error is None"

/-- Cache key built by `OHLCCache._get_cache_key` (`cache.py` lines 17-25):
`(trading_pair.value, interval, limit, offset, sort)`. -/
abbrev CacheKey := String × ℤ × ℤ × ℤ × String

/-- Association-list lookup with decidable key equality, modelling Python
dict lookup (dict keys are unique). -/
def lookupKey {α β : Type} [DecidableEq α] : List (α × β) → α → Option β
  | [], _ => none
  | (k', v) :: rest, k => if k' = k then some v else lookupKey rest k

/-- Dict assignment `d[k] = v`: replace in place when present, append when
new. -/
def setKey {α β : Type} [DecidableEq α] : List (α × β) → α → β → List (α × β)
  | [], k, v => [(k, v)]
  | (k', v') :: rest, k, v =>
    if k' = k then (k, v) :: rest else (k', v') :: setKey rest k v

/-- Dict deletion `del d[k]`: on the duplicate-free lists a dict yields, the
same as removing every pair with that key. -/
def eraseKey {α β : Type} [DecidableEq α] (l : List (α × β)) (k : α) :
    List (α × β) :=
  l.filter (fun p => p.1 ≠ k)

/-- State of an `OHLCCache` (`cache.py` lines 8-12): the entry dict mapping
keys to `(inserted_at, payload)` and the TTL. Instants are integers in
microseconds (the exact resolution of Python `datetime`/`timedelta`
arithmetic), so `timedelta` comparison is exact integer comparison. -/
structure CacheState where
  cache : List (CacheKey × (ℤ × List OHLCRec))
  ttl : ℤ

/-- `OHLCCache._is_expired` (`cache.py` lines 14-15):
`datetime.now() - timestamp > self.ttl`. -/
def isExpired (st : CacheState) (now insertedAt : ℤ) : Bool :=
  now - insertedAt > st.ttl

/-- `OHLCCache.get` (`cache.py` lines 27-45) at time `now`: a present,
unexpired entry returns its payload; a present expired entry is deleted and
the call returns `None`; a missing key returns `None`. Returns the result
together with the post-call cache state. -/
def cacheGet (st : CacheState) (now : ℤ) (k : CacheKey) :
    Option (List OHLCRec) × CacheState :=
  match lookupKey st.cache k with
  | none => (none, st)
  | some (insertedAt, data) =>
    if isExpired st now insertedAt then
      (none, { st with cache := eraseKey st.cache k })
    else
      (some data, st)

/-- `OHLCCache.set` (`cache.py` lines 47-59) at time `now`:
`self.cache[key] = (datetime.now(), data)`. -/
def cacheSet (st : CacheState) (now : ℤ) (k : CacheKey)
    (data : List OHLCRec) : CacheState :=
  { st with cache := setKey st.cache k (now, data) }

/-- Observable outcome of one `get_or_fetch` call: the value returned (or
the error propagated), the final cache state, and how many times the
upstream fetch was called. -/
structure GetOrFetchTrace where
  result : Except String (List OHLCRec)
  final : CacheState
  fetchCalls : ℕ

/-- `OHLCCache.get_or_fetch` (`cache.py` lines 61-77): try `get` first; a
hit returns the cached payload without fetching; a miss calls
`get_ohlc_data` exactly once — a raise propagates to the caller with nothing
stored, a success is stored via `set` (at time `tset`) before being
returned. `fetched` abstracts the outcome of the one upstream call. -/
def get_or_fetch (st : CacheState) (tget tset : ℤ) (k : CacheKey)
    (fetched : Except String (List OHLCRec)) : GetOrFetchTrace :=
  match cacheGet st tget k with
  | (some cached, st') => ⟨.ok cached, st', 0⟩
  | (none, st') =>
    match fetched with
    | .error e => ⟨.error e, st', 1⟩
    | .ok fresh => ⟨.ok fresh, cacheSet st' tset k fresh, 1⟩

/-- Whether an `Except` computation raised. -/
def isErr {ε α : Type} : Except ε α → Bool
  | .error _ => true
  | .ok _ => false

/-- A fixed stand-in for `datetime.now()` in concrete instances. -/
def sampleNow : PyDatetime := ⟨2025, 6, 1, 12, 0, 0, 0⟩

/-- The wrapped frame of the spec's dual wire-format test case. -/
def wrappedFrame : Json :=
  .obj [("values", .arr [.obj [("bid_price", .num 1), ("ask_price", .num 2),
    ("date_time", .str "2024-01-01 00:00:00.000")]])]

/-- The flat frame of the spec's dual wire-format test case. -/
def flatFrame : Json :=
  .obj [("bid", .num 1), ("ask", .num 2),
    ("timestamp", .str "2024-01-01T00:00:00")]

/-- A frame that is valid JSON but matches neither wire shape. -/
def badFrame : Json := .obj [("foo", .num 1)]

/-- A minimal well-formed flat tick frame (spread supplied upstream). -/
def goodFrame : Json :=
  .obj [("bid", .num 1), ("ask", .num 2), ("spread", .num 1)]

/-- The tick `goodFrame` parses to (connection symbol `s`, `datetime.now()`
equal to `sampleNow`). -/
def sampleTick : TickData := ⟨"s", 1, 2, sampleNow, some 1⟩

/-- Three-subscriber behaviour in which the middle callback always raises. -/
def failingSecond : Callback → TickData → Except String Unit :=
  fun c _ => if c = 1 then .error "subscriber failure" else .ok ()

/-- A concrete cache key. -/
def sampleKey : CacheKey := ("xau_usd", 3600, 50, 0, "desc")

/-- A concrete candle. -/
def sampleRec : OHLCRec :=
  ⟨⟨2024, 1, 1, 0, 0, 0, 0⟩, 10, 12, 9, 11, none, "xau_usd"⟩

/-- An earlier batched tick object inside a values array. -/
def tickEarlier : Json := .obj [("bid_price", .num 5), ("ask_price", .num 6)]

/-- The final batched tick object inside a values array. -/
def tickLatest : Json := .obj [("bid_price", .num 1), ("ask_price", .num 2)]

/-- Binding a raised `Except` short-circuits. -/
theorem error_bind {ε α β : Type} (e : ε) (f : α → Except ε β) :
    (Except.error e >>= f : Except ε β) = Except.error e := rfl

/-- Binding a successful `Except` applies the continuation. -/
theorem ok_bind {ε α β : Type} (a : α) (f : α → Except ε β) :
    (Except.ok a >>= f : Except ε β) = f a := rfl

/-- A bound `Except` computation raises whenever every successful value of
its first stage makes the continuation raise (the first stage raising
short-circuits). -/
theorem isErr_bind_of_ok {ε α β : Type} (x : Except ε α)
    (f : α → Except ε β) (h : ∀ a, x = .ok a → isErr (f a) = true) :
    isErr (x >>= f) = true := by
  cases x with
  | error e => rfl
  | ok a => simpa [ok_bind] using h a rfl

/-- C7: parsing the wrapped frame
`\x7b"values":[\x7b"bid_price":1,"ask_price":2,"date_time":"2024-01-01 00:00:00.000"\x7d]\x7d`
and the equivalent flat frame
`\x7b"bid":1,"ask":2,"timestamp":"2024-01-01T00:00:00"\x7d` both produce a
tick with bid 1, ask 2, spread 1 (derived as ask - bid since not supplied)
and the same timestamp — the identical `TickData`, for any connection symbol
and any wall-clock time, so there is no downstream-visible difference
between the two shapes. -/
theorem dual_wire_format_equivalence (sym : String) (now : PyDatetime) :
    receive_tick sym now wrappedFrame =
      .ok ⟨sym, 1, 2, ⟨2024, 1, 1, 0, 0, 0, 0⟩, some 1⟩ ∧
    receive_tick sym now flatFrame =
      .ok ⟨sym, 1, 2, ⟨2024, 1, 1, 0, 0, 0, 0⟩, some 1⟩ := by
  have hw : receive_tick sym now wrappedFrame =
      .ok ⟨sym, 1, 2, ⟨2024, 1, 1, 0, 0, 0, 0⟩, some ((2 : ℚ) - 1)⟩ := rfl
  have hf : receive_tick sym now flatFrame =
      .ok ⟨sym, 1, 2, ⟨2024, 1, 1, 0, 0, 0, 0⟩, some ((2 : ℚ) - 1)⟩ := rfl
  rw [hw, hf]
  norm_num

/-- On a frame whose `values` key holds a non-empty array, `receive_tick`
reduces to the wrapped-format parser on the array's last element. -/
theorem receive_tick_wrapped (sym : String) (now : PyDatetime)
    (fs : List (String × Json)) (vs : List Json) (v : Json)
    (hv : fs.lookup "values" = some (.arr (vs ++ [v]))) :
    receive_tick sym now (.obj fs) = wrappedTick sym now v := by
  simp [receive_tick, hasKey, jget, hv, isArr, List.getLast?_concat]

/-- C9: for every wrapped streaming frame whose `values` array is non-empty,
the tick delivered downstream is built from exactly the last element of the
array: `receive_tick` on the frame coincides with the wrapped-format parser
applied to that last element alone, so the earlier elements have no
downstream-visible effect. -/
theorem wrapped_frame_uses_last_element (sym : String) (now : PyDatetime)
    (fs : List (String × Json)) (vs : List Json) (v : Json)
    (hv : fs.lookup "values" = some (.arr (vs ++ [v]))) :
    receive_tick sym now (.obj fs) = wrappedTick sym now v :=
  receive_tick_wrapped sym now fs vs v hv

/-- Witness for C9 at a concrete two-element batch. -/
theorem wrapped_frame_uses_last_element_witness :
    receive_tick "s" sampleNow
        (.obj [("values", .arr [tickEarlier, tickLatest])]) =
      wrappedTick "s" sampleNow tickLatest :=
  wrapped_frame_uses_last_element "s" sampleNow
    [("values", .arr [tickEarlier, tickLatest])] [tickEarlier] tickLatest rfl

/-- C10: because field-alias probing uses Python `or`-chaining, a field whose
present value is the number 0 is treated as absent. First conjunct: for every
wrapped frame whose last values element carries `bid_price` equal to 0 and no
`bid` alias, `receive_tick` raises the missing-bid-or-ask parse error instead
of returning a tick with bid 0. Second conjunct: the same for every flat
frame (any frame whose `values` key is absent or not a list) with `bid_price`
0 and no `bid` alias. Third conjunct: the OHLC item parser treats a 0-valued
`Open`, `High`, `Low` or `Close` with no lowercase alias the same way — the
`or`-chain yields `None` and `float(None)` raises, failing the item. -/
theorem zero_valued_field_treated_as_absent :
    (∀ (sym : String) (now : PyDatetime) (fs tick : List (String × Json))
      (vs : List Json),
      fs.lookup "values" = some (.arr (vs ++ [.obj tick])) →
      tick.lookup "bid_price" = some (.num 0) →
      tick.lookup "bid" = none →
      receive_tick sym now (.obj fs) =
        .error "Missing bid or ask price in tick data")
  ∧ (∀ (sym : String) (now : PyDatetime) (fs : List (String × Json)),
      (∀ j, fs.lookup "values" = some j → isArr j = false) →
      fs.lookup "bid_price" = some (.num 0) →
      fs.lookup "bid" = none →
      receive_tick sym now (.obj fs) =
        .error "Message missing bid or ask fields")
  ∧ (∀ (tp : String) (item : List (String × Json)),
      ((item.lookup "Open" = some (.num 0) ∧ item.lookup "open" = none) ∨
       (item.lookup "High" = some (.num 0) ∧ item.lookup "high" = none) ∨
       (item.lookup "Low" = some (.num 0) ∧ item.lookup "low" = none) ∨
       (item.lookup "Close" = some (.num 0) ∧ item.lookup "close" = none)) →
      isErr (parseItem tp (.obj item)) = true) := by
  refine ⟨?_, ?_, ?_⟩
  · intro sym now fs tick vs hv hbp hb
    rw [receive_tick_wrapped sym now fs vs (.obj tick) hv]
    simp [wrappedTick, jget, hbp, hb, pyOr, truthy, isNull]
  · intro sym now fs hv hbp hb
    have hguard :
        (hasKey (.obj fs) "values" && isArr (jget (.obj fs) "values")) =
          false := by
      cases hl : fs.lookup "values" with
      | none => simp [hasKey, hl]
      | some j => simp [hasKey, jget, hl, hv j hl]
    unfold receive_tick
    rw [hguard]
    simp [hasKey, hbp, flatTick, jget, hb, pyOr, truthy, isNull]
  · intro tp item hfield
    have hnull : ∀ ku kl : String,
        item.lookup ku = some (.num 0) → item.lookup kl = none →
        pyOr (jget (.obj item) ku) (jget (.obj item) kl) = .null := by
      intro ku kl hu hl
      simp [jget, hu, hl, pyOr, truthy]
    unfold parseItem
    rcases hfield with ⟨hu, hl⟩ | ⟨hu, hl⟩ | ⟨hu, hl⟩ | ⟨hu, hl⟩
    · simp [hnull "Open" "open" hu hl, pyFloat, error_bind, isErr]
    · apply isErr_bind_of_ok
      intro o ho
      simp [hnull "High" "high" hu hl, pyFloat, error_bind, isErr]
    · apply isErr_bind_of_ok
      intro o ho
      apply isErr_bind_of_ok
      intro h hh
      simp [hnull "Low" "low" hu hl, pyFloat, error_bind, isErr]
    · apply isErr_bind_of_ok
      intro o ho
      apply isErr_bind_of_ok
      intro h hh
      apply isErr_bind_of_ok
      intro l hl2
      simp [hnull "Close" "close" hu hl, pyFloat, error_bind, isErr]

/-- Witness for C10: concrete wrapped and flat frames with `bid_price` 0,
and concrete items with `Open` 0 and with `Close` 0. -/
theorem zero_valued_field_treated_as_absent_witness :
    receive_tick "s" sampleNow
        (.obj [("values", .arr [.obj [("bid_price", .num 0),
          ("ask_price", .num 2)]])]) =
      .error "Missing bid or ask price in tick data" ∧
    receive_tick "s" sampleNow
        (.obj [("bid_price", .num 0), ("ask_price", .num 2)]) =
      .error "Message missing bid or ask fields" ∧
    isErr (parseItem "xau_usd"
        (.obj [("Open", .num 0), ("High", .num 12), ("Low", .num 9),
          ("Close", .num 11), ("Date_time", .str "2024-01-01T00:00:00")])) =
      true ∧
    isErr (parseItem "xau_usd"
        (.obj [("Open", .num 10), ("High", .num 12), ("Low", .num 9),
          ("Close", .num 0), ("Date_time", .str "2024-01-01T00:00:00")])) =
      true :=
  ⟨zero_valued_field_treated_as_absent.1 "s" sampleNow
      [("values", .arr [.obj [("bid_price", .num 0), ("ask_price", .num 2)]])]
      [("bid_price", .num 0), ("ask_price", .num 2)] [] rfl rfl rfl,
    zero_valued_field_treated_as_absent.2.1 "s" sampleNow
      [("bid_price", .num 0), ("ask_price", .num 2)]
      (fun _ hj => nomatch hj) rfl rfl,
    zero_valued_field_treated_as_absent.2.2 "xau_usd"
      [("Open", .num 0), ("High", .num 12), ("Low", .num 9),
        ("Close", .num 11), ("Date_time", .str "2024-01-01T00:00:00")]
      (Or.inl ⟨rfl, rfl⟩),
    zero_valued_field_treated_as_absent.2.2 "xau_usd"
      [("Open", .num 10), ("High", .num 12), ("Low", .num 9),
        ("Close", .num 0), ("Date_time", .str "2024-01-01T00:00:00")]
      (Or.inr (Or.inr (Or.inr ⟨rfl, rfl⟩)))⟩

/-- C2 counterexample: a valid-JSON frame matching neither wire shape does
not leave the listen loop running — at the concrete event trace consisting of
such a frame followed by a perfectly well-formed tick frame, the loop
delivers nothing (the subsequent tick is never received) and terminates by
re-raising the parse error, contradicting the claim that the message is
merely dropped and the loop continues. -/
theorem malformed_frame_counterexample :
    listen (fun _ => .ok ()) "s" sampleNow [.msg badFrame, .msg goodFrame] =
      ([], .raised "Unknown message format") := rfl

/-- C2 as amended: a message that is valid JSON but matches neither wire
shape, or is missing bid or ask, makes `receive_tick` raise; the listen
loop's generic handler re-raises (after setting `running` to `False`), so the
loop terminates immediately: no tick is delivered from that message onward,
whatever events follow. (The stream manager then treats the raise like any
connection failure and reconnects.) -/
theorem malformed_frame_terminates_listen
    (cb : TickData → Except String Unit) (sym : String) (now : PyDatetime)
    (bad : Json) (e : String) (rest : List WireEvent)
    (hbad : receive_tick sym now bad = .error e) :
    listen cb sym now (.msg bad :: rest) = ([], .raised e) := by
  simp [listen, hbad]

/-- Witness for the amended C2 at the counterexample's malformed frame. -/
theorem malformed_frame_terminates_listen_witness :
    listen (fun _ => .ok ()) "s" sampleNow [.msg badFrame, .msg goodFrame] =
      ([], .raised "Unknown message format") :=
  malformed_frame_terminates_listen (fun _ => .ok ()) "s" sampleNow badFrame
    "Unknown message format" [.msg goodFrame] rfl

/-- C3 counterexample: under five consecutive listen failures the observed
backoff sleeps are 1, 2, 4, 8 — not the claimed 1, 2, 4, 8, 16: after the
fifth failure the loop gives up immediately without a fifth sleep. -/
theorem reconnect_backoff_counterexample :
    ¬ (listen_with_reconnect (fun _ => true)).sleeps = [1, 2, 4, 8, 16] := by
  decide

/-- C3 as amended: when every listen attempt raises while subscribers remain,
`listen_with_reconnect` makes 5 listen attempts in total; the inter-attempt
delays are exactly 1, 2, 4, 8 seconds in order (doubling; the 30s cap is
never reached because after the fifth failure the loop gives up with no
further delay), and it then abandons the stream, leaving the instrument
disconnected. -/
theorem reconnect_backoff_sequence (raises : ℕ → Bool)
    (h : ∀ i, i < 5 → raises i = true) :
    listen_with_reconnect raises = ⟨[1, 2, 4, 8], 5, true⟩ := by
  have h0 := h 0 (by norm_num)
  have h1 := h 1 (by norm_num)
  have h2 := h 2 (by norm_num)
  have h3 := h 3 (by norm_num)
  have h4 := h 4 (by norm_num)
  simp [listen_with_reconnect, reconnectLoop, h0, h1, h2, h3, h4]

/-- Witness for the amended C3 with every attempt failing. -/
theorem reconnect_backoff_sequence_witness :
    listen_with_reconnect (fun _ => true) = ⟨[1, 2, 4, 8], 5, true⟩ :=
  reconnect_backoff_sequence (fun _ => true) (fun _ _ => rfl)

/-- The lifecycle invariant of `PriceStreamManager`: the client-key list is
duplicate-free, and a client exists for a symbol exactly when its subscriber
set is non-empty. -/
def ManagerInv (st : ManagerState) : Prop :=
  st.clients.Nodup ∧ ∀ s : String, s ∈ st.clients ↔ subscriberSet st s ≠ ∅

/-- `subscribe` preserves the lifecycle invariant. -/
theorem managerInv_subscribe (st : ManagerState) (s : String) (c : Callback)
    (h : ManagerInv st) : ManagerInv (subscribe st s c) := by
  obtain ⟨hnd, hiff⟩ := h
  constructor
  · by_cases hs : s ∈ st.clients <;>
      simp [subscribe, hs, List.nodup_append, hnd]
  · intro x
    by_cases hx : x = s
    · subst hx
      by_cases hs : x ∈ st.clients <;>
        simp [subscribe, hs, subscriberSet, Finset.insert_ne_empty]
    · have hmem : x ∈ (subscribe st s c).clients ↔ x ∈ st.clients := by
        by_cases hs : s ∈ st.clients <;> simp [subscribe, hs, hx]
      have hsub : subscriberSet (subscribe st s c) x = subscriberSet st x := by
        simp [subscribe, subscriberSet, hx]
      rw [hmem, hsub]
      exact hiff x

/-- `unsubscribe` preserves the lifecycle invariant. -/
theorem managerInv_unsubscribe (st : ManagerState) (s : String) (c : Callback)
    (h : ManagerInv st) : ManagerInv (unsubscribe st s c) := by
  obtain ⟨hnd, hiff⟩ := h
  unfold unsubscribe
  cases hsub : st.subscribers s with
  | none => exact ⟨hnd, hiff⟩
  | some t =>
    by_cases hemp : t.erase c = ∅
    · simp only [hemp, if_pos rfl]
      refine ⟨hnd.filter _, ?_⟩
      intro x
      by_cases hx : x = s
      · subst hx
        simp [subscriberSet, List.mem_filter]
      · simp [subscriberSet, hx, List.mem_filter, hiff x]
    · simp only [if_neg hemp]
      refine ⟨hnd, ?_⟩
      intro x
      by_cases hx : x = s
      · subst hx
        have ht : t ≠ ∅ := by
          intro hteq
          subst hteq
          simp at hemp
        simp only [subscriberSet, if_pos rfl, Option.getD_some]
        constructor
        · intro _
          exact hemp
        · intro _
          exact (hiff x).mpr (by simp [subscriberSet, hsub, ht])
      · simp [subscriberSet, hx, hiff x]

/-- Any sequence of operations from any invariant-satisfying state preserves
the invariant. -/
theorem managerInv_runFrom (ops : List ManagerOp) (st : ManagerState)
    (h : ManagerInv st) : ManagerInv (ops.foldl applyOp st) := by
  induction ops generalizing st with
  | nil => exact h
  | cons op rest ih =>
    cases op with
    | sub s c => exact ih _ (managerInv_subscribe st s c h)
    | unsub s c => exact ih _ (managerInv_unsubscribe st s c h)

/-- C1: after any sequence of subscribe/unsubscribe calls on a fresh
`PriceStreamManager`, a clients-map entry for an instrument exists if and
only if that instrument's subscriber set is non-empty, and
`get_active_streams()` is duplicate-free — at most one active stream per
instrument, and exactly the instruments with a non-empty subscriber set. -/
theorem manager_refcount_invariant (ops : List ManagerOp) :
    (get_active_streams (runOps ops)).Nodup ∧
    ∀ s : String,
      s ∈ get_active_streams (runOps ops) ↔ subscriberSet (runOps ops) s ≠ ∅ := by
  have hinit : ManagerInv initialManager := by
    constructor
    · exact List.nodup_nil
    · intro s
      simp [initialManager, subscriberSet]
  exact managerInv_runFrom ops initialManager hinit

/-- C4: the retry contract of `get_ohlc_data`. When every attempt fails
(network/HTTP/parse), exactly 3 attempts are made with a fixed 2-second
sleep between consecutive attempts, and the call raises the last attempt's
error (the spec's `UpstreamError`). When the first success occurs at attempt
`i`, its parsed candle list is returned with no error after `i+1` attempts.
An empty-but-successful response parses to the empty list, never an
error. -/
theorem fetch_retry_policy (tp : String)
    (responses : ℕ → Except String Json) :
    ((∀ i, i < 3 → ∃ e, attemptResult tp responses i = .error e) →
        get_ohlc_data tp responses =
          ⟨attemptResult tp responses 2, 3, [2, 2]⟩)
  ∧ (∀ i v, i < 3 → attemptResult tp responses i = .ok v →
        (∀ j, j < i → ∃ e, attemptResult tp responses j = .error e) →
        get_ohlc_data tp responses = ⟨.ok v, i + 1, List.replicate i 2⟩)
  ∧ parseResponse tp (.arr []) = .ok [] := by
  refine ⟨?_, ?_, rfl⟩
  · intro hfail
    obtain ⟨e0, h0⟩ := hfail 0 (by norm_num)
    obtain ⟨e1, h1⟩ := hfail 1 (by norm_num)
    obtain ⟨e2, h2⟩ := hfail 2 (by norm_num)
    simp [get_ohlc_data, fetchLoop, h0, h1, h2]
  · intro i v hi hok hprev
    interval_cases i
    · simp [get_ohlc_data, fetchLoop, hok]
    · obtain ⟨e0, h0⟩ := hprev 0 (by norm_num)
      simp [get_ohlc_data, fetchLoop, h0, hok]
    · obtain ⟨e0, h0⟩ := hprev 0 (by norm_num)
      obtain ⟨e1, h1⟩ := hprev 1 (by norm_num)
      simp [get_ohlc_data, fetchLoop, h0, h1, hok, List.replicate]

/-- Witness for C4 against an endpoint that always errors. -/
theorem fetch_retry_policy_witness :
    get_ohlc_data "xau_usd" (fun _ => .error "connect timeout") =
      ⟨attemptResult "xau_usd" (fun _ => .error "connect timeout") 2, 3,
        [2, 2]⟩ :=
  (fetch_retry_policy "xau_usd" (fun _ => .error "connect timeout")).1
    (fun _ _ => ⟨"connect timeout", rfl⟩)

/-- Looking up a key just assigned finds its value. -/
theorem lookupKey_setKey {α β : Type} [DecidableEq α]
    (l : List (α × β)) (k : α) (v : β) :
    lookupKey (setKey l k v) k = some v := by
  induction l with
  | nil => simp [setKey, lookupKey]
  | cons p rest ih =>
    by_cases hp : p.1 = k
    · simp [setKey, hp, lookupKey]
    · simp [setKey, hp, lookupKey, ih]

/-- Looking up a key just deleted finds nothing. -/
theorem lookupKey_eraseKey {α β : Type} [DecidableEq α]
    (l : List (α × β)) (k : α) :
    lookupKey (eraseKey l k) k = none := by
  induction l with
  | nil => rfl
  | cons p rest ih =>
    by_cases hp : p.1 = k
    · simp only [eraseKey] at ih ⊢
      simpa [hp] using ih
    · simp only [eraseKey] at ih ⊢
      simpa [hp, lookupKey] using ih

/-- After a missed `get`, the cache holds nothing under the key (either it
never did, or the expired entry was just deleted). -/
theorem cacheGet_miss_no_entry (st : CacheState) (now : ℤ) (k : CacheKey)
    (hmiss : (cacheGet st now k).1 = none) :
    lookupKey (cacheGet st now k).2.cache k = none := by
  unfold cacheGet at hmiss ⊢
  cases hl : lookupKey st.cache k with
  | none => simp [hl]
  | some e =>
    obtain ⟨insertedAt, data⟩ := e
    by_cases hex : isExpired st now insertedAt
    · simp [hl, hex, lookupKey_eraseKey]
    · simp [hl, hex] at hmiss

/-- C5: for every cache key, a `get` at a time within `ttl` of the last
`set` for that key returns exactly the stored payload, and a `get` after
more than `ttl` has elapsed returns a miss (`None`) and removes the entry
from the cache. -/
theorem cache_freshness (st : CacheState) (tset tget : ℤ) (k : CacheKey)
    (payload : List OHLCRec) :
    (tget - tset ≤ st.ttl →
      cacheGet (cacheSet st tset k payload) tget k =
        (some payload, cacheSet st tset k payload))
  ∧ (tget - tset > st.ttl →
      (cacheGet (cacheSet st tset k payload) tget k).1 = none ∧
      lookupKey (cacheGet (cacheSet st tset k payload) tget k).2.cache k =
        none) := by
  have hl : lookupKey (cacheSet st tset k payload).cache k =
      some (tset, payload) := lookupKey_setKey st.cache k (tset, payload)
  constructor
  · intro hfresh
    have hex : isExpired (cacheSet st tset k payload) tget tset = false := by
      simp [isExpired, cacheSet]
      omega
    simp [cacheGet, hl, hex]
  · intro hstale
    have hex : isExpired (cacheSet st tset k payload) tget tset = true := by
      simp [isExpired, cacheSet]
      omega
    simp [cacheGet, hl, hex, lookupKey_eraseKey]

/-- Witness for C5: a fresh get 30s after set with a 60s TTL hits; a get
100s after set misses and evicts. -/
theorem cache_freshness_witness :
    cacheGet (cacheSet ⟨[], 60⟩ 0 sampleKey [sampleRec]) 30 sampleKey =
      (some [sampleRec], cacheSet ⟨[], 60⟩ 0 sampleKey [sampleRec]) ∧
    (cacheGet (cacheSet ⟨[], 60⟩ 0 sampleKey [sampleRec]) 100 sampleKey).1 =
      none ∧
    lookupKey
      (cacheGet (cacheSet ⟨[], 60⟩ 0 sampleKey [sampleRec]) 100
        sampleKey).2.cache sampleKey = none :=
  ⟨(cache_freshness ⟨[], 60⟩ 0 30 sampleKey [sampleRec]).1 (by decide),
    (cache_freshness ⟨[], 60⟩ 0 100 sampleKey [sampleRec]).2 (by decide)⟩

/-- C8: when `get_or_fetch` misses, the one upstream fetch's failure is
returned to the caller with nothing stored under the key, and its success is
stored under the key (timestamped with the set time) before being returned;
in both cases exactly one upstream fetch is made. -/
theorem get_or_fetch_miss_contract (st : CacheState) (tget tset : ℤ)
    (k : CacheKey) (fetched : Except String (List OHLCRec))
    (hmiss : (cacheGet st tget k).1 = none) :
    (get_or_fetch st tget tset k fetched).fetchCalls = 1
  ∧ (∀ e, fetched = .error e →
      (get_or_fetch st tget tset k fetched).result = .error e ∧
      lookupKey (get_or_fetch st tget tset k fetched).final.cache k = none)
  ∧ (∀ d, fetched = .ok d →
      (get_or_fetch st tget tset k fetched).result = .ok d ∧
      lookupKey (get_or_fetch st tget tset k fetched).final.cache k =
        some (tset, d)) := by
  have hpair : cacheGet st tget k = (none, (cacheGet st tget k).2) := by
    rw [← hmiss]
  have hnone := cacheGet_miss_no_entry st tget k hmiss
  refine ⟨?_, ?_, ?_⟩
  · unfold get_or_fetch
    rw [hpair]
    cases fetched <;> rfl
  · intro e he
    subst he
    unfold get_or_fetch
    rw [hpair]
    exact ⟨rfl, hnone⟩
  · intro d hd
    subst hd
    unfold get_or_fetch
    rw [hpair]
    exact ⟨rfl, by simp [cacheSet, lookupKey_setKey]⟩

/-- Witness for C8: a failing fetch on an empty cache propagates its error
and stores nothing; a successful fetch is stored. -/
theorem get_or_fetch_miss_contract_witness :
    (get_or_fetch ⟨[], 60⟩ 0 0 sampleKey (.error "boom")).result =
      .error "boom" ∧
    lookupKey (get_or_fetch ⟨[], 60⟩ 0 0 sampleKey
      (.error "boom")).final.cache sampleKey = none ∧
    (get_or_fetch ⟨[], 60⟩ 0 0 sampleKey (.ok [sampleRec])).result =
      .ok [sampleRec] ∧
    lookupKey (get_or_fetch ⟨[], 60⟩ 0 0 sampleKey
      (.ok [sampleRec])).final.cache sampleKey = some (0, [sampleRec]) := by
  have h1 := (get_or_fetch_miss_contract ⟨[], 60⟩ 0 0 sampleKey
    (.error "boom") rfl).2.1 "boom" rfl
  have h2 := (get_or_fetch_miss_contract ⟨[], 60⟩ 0 0 sampleKey
    (.ok [sampleRec]) rfl).2.2 [sampleRec] rfl
  exact ⟨h1.1, h1.2, h2.1, h2.2⟩

/-- C6: fan-out isolation. For every event trace and every set of current
subscribers, each tick processed by the manager-driven listen loop is
delivered to every subscriber whose callback succeeds on it — whatever the
other callbacks do — and the loop's outcome and the sequence of ticks it
processes are independent of the subscriber behaviour: a raising callback
neither prevents delivery to the others nor aborts the listen loop (the
`gather` uses `return_exceptions=True`). -/
theorem fanout_isolation (cbs : List Callback)
    (runCb : Callback → TickData → Except String Unit)
    (sym : String) (now : PyDatetime) (events : List WireEvent) :
    (∀ p ∈ (managerListen cbs runCb sym now events).1, ∀ c ∈ cbs,
        runCb c p.1 = .ok () → (c, Except.ok ()) ∈ p.2)
  ∧ (managerListen cbs runCb sym now events).2 =
      (managerListen cbs (fun _ _ => .ok ()) sym now events).2
  ∧ (managerListen cbs runCb sym now events).1.map Prod.fst =
      (managerListen cbs (fun _ _ => .ok ()) sym now events).1.map
        Prod.fst := by
  induction events with
  | nil => exact ⟨by simp [managerListen], rfl, rfl⟩
  | cons ev rest ih =>
    obtain ⟨ihDeliver, ihOutcome, ihTicks⟩ := ih
    cases ev with
    | badJson => exact ⟨by simp [managerListen], rfl, rfl⟩
    | connClosed => exact ⟨by simp [managerListen], rfl, rfl⟩
    | sockError e => exact ⟨by simp [managerListen], rfl, rfl⟩
    | msg j =>
      cases hparse : receive_tick sym now j with
      | error e =>
        refine ⟨?_, ?_, ?_⟩ <;> simp [managerListen, hparse]
      | ok t =>
        refine ⟨?_, ?_, ?_⟩
        · intro p hp c hc hok
          simp only [managerListen, hparse, List.mem_cons] at hp
          rcases hp with hp | hp
          · subst hp
            simp only [broadcast_tick]
            exact List.mem_map.mpr ⟨c, hc, by rw [hok]⟩
          · exact ihDeliver p hp c hc hok
        · simp [managerListen, hparse, ihOutcome]
        · simp [managerListen, hparse, ihTicks]

/-- Witness for C6: three subscribers where the middle one always raises;
on a one-tick trace the first and third still receive the tick, and the
loop's outcome matches the all-callbacks-succeed run. -/
theorem fanout_isolation_witness :
    ((0, Except.ok ()) ∈ broadcast_tick [0, 1, 2] failingSecond sampleTick)
  ∧ ((2, Except.ok ()) ∈ broadcast_tick [0, 1, 2] failingSecond sampleTick)
  ∧ (managerListen [0, 1, 2] failingSecond "s" sampleNow
        [.msg goodFrame]).2 =
      (managerListen [0, 1, 2] (fun _ _ => .ok ()) "s" sampleNow
        [.msg goodFrame]).2 := by
  have h := fanout_isolation [0, 1, 2] failingSecond "s" sampleNow
    [.msg goodFrame]
  refine ⟨?_, ?_, h.2.1⟩
  · exact h.1 (sampleTick, broadcast_tick [0, 1, 2] failingSecond sampleTick)
      (List.mem_singleton.mpr rfl) 0 (by decide) rfl
  · exact h.1 (sampleTick, broadcast_tick [0, 1, 2] failingSecond sampleTick)
      (List.mem_singleton.mpr rfl) 2 (by decide) rfl

end GBNX

